import Mathlib

/-!
Shallow embedding of `loader_hub/file/image_blip2/base.py`: the
`ImageVisionLLMReader` class, a document loader that captions an image file
with a BLIP2 vision-language model and returns an `ImageDocument`.

External collaborators (PIL, torch, transformers, sentencepiece, the
llama-index document schema, and the `img_2_b64` utility imported from
`gpt_index.img_utils`) are modelled as opaque values and oracles.  The local
control flow — dependency import checks, device and dtype selection, hub
downloads, the three attribute assignments, Python attribute lookup, color
normalization, base64 encoding, and the construction of the returned
document — is translated from the source.  Side effects are recorded in an
explicit effect trace.
-/

/-- Numeric precision selected for the model: `torch.float16` or
`torch.float32`. -/
inductive TorchDtype
  | float16
  | float32
deriving DecidableEq, Repr

/-- Opaque processor handle; `from_pretrained hub` models the external call
`Blip2Processor.from_pretrained(hub)`. -/
inductive Processor
  | from_pretrained (hub : String)
deriving DecidableEq, Repr

/-- Opaque model handle; `from_pretrained hub dtype` models the external call
`Blip2ForConditionalGeneration.from_pretrained(hub, torch_dtype=dtype)`. -/
inductive Model
  | from_pretrained (hub : String) (dtype : TorchDtype)
deriving DecidableEq, Repr

/-- The `parser_config` dictionary built or supplied at construction, with
its four keys `processor`, `model`, `device`, `dtype`. -/
structure ParserConfig where
  processor : Processor
  model : Model
  device : String
  dtype : TorchDtype
deriving DecidableEq, Repr

/-- A PIL image: either as decoded from a file (`raw mode data`, where `data`
stands for the opaque pixel payload) or the result of `orig.convert(target)`. -/
inductive Img
  | raw (mode : String) (data : Nat)
  | converted (target : String) (orig : Img)
deriving DecidableEq, Repr

/-- `image.mode`: a converted image carries the target mode. -/
def Img.mode : Img → String
  | .raw m _ => m
  | .converted t _ => t

/-- `image.convert(target)`. -/
def Img.convert (i : Img) (target : String) : Img :=
  .converted target i

/-- The base64 string produced by `gpt_index.img_utils.img_2_b64` (an
external utility): modelled as an opaque injective serialization that
remembers which image it encodes. -/
structure B64Str where
  img : Img
deriving DecidableEq, Repr

/-- `img_2_b64(image)`. -/
def img_2_b64 (i : Img) : B64Str := ⟨i⟩

/-- Python values stored in the reader instance attributes. -/
inductive PyVal
  | config (c : ParserConfig)
  | bool (b : Bool)
  | str (s : String)
deriving DecidableEq, Repr

/-- Python truthiness of the stored values, for `if self._keep_image:`. -/
def PyVal.truthy : PyVal → Bool
  | .config _ => true
  | .bool b => b
  | .str s => s != ""

/-- Exceptions visible in the modelled code paths. -/
inductive PyErr
  | unidentifiedImage
  | attributeError (name : String)
  | typeError
deriving DecidableEq, Repr

/-- Subscripting `self.parser_config["model"]` (and the three sibling reads)
requires the attribute value to be the configuration dictionary; on any other
value Python raises a TypeError. -/
def PyVal.asConfig : PyVal → Except PyErr ParserConfig
  | .config c => .ok c
  | _ => .error .typeError

/-- Passing `self._prompt` to the processor as text; only a string is
modelled as acceptable. -/
def PyVal.asStr : PyVal → Except PyErr String
  | .str s => .ok s
  | _ => .error .typeError

/-- Effects performed by the reader, recorded as a trace: dependency import
checks and hub downloads during construction; image I/O, color conversion,
base64 encoding, device placement and model invocation during `load_data`. -/
inductive Effect
  | importCheck (lib : String)
  | hubDownload (hub : String)
  | imageOpen
  | convert (fromMode toMode : String)
  | encodeB64 (i : Img)
  | modelTo (device : String)
  | preprocess
  | generate
  | decodeTok
deriving DecidableEq, Repr

/-- The instance attribute dictionary (`__dict__`) of a reader object. -/
abbrev Attrs := List (String × PyVal)

/-- Python attribute lookup: the instance dictionary first, then the class
hierarchy.  The class hierarchy is a parameter (`classAttrs`) because the
base class `BaseReader` comes from the external llama-index framework.
Absence in both raises `AttributeError`. -/
def getattr (self : Attrs) (classAttrs : String → Option PyVal)
    (name : String) : Except PyErr PyVal :=
  match self.lookup name with
  | some v => .ok v
  | none =>
    match classAttrs name with
    | some v => .ok v
    | none => .error (.attributeError name)

/-- Which optional libraries import successfully in the current environment,
and whether `torch.cuda.is_available()` returns true. -/
structure Env where
  torch_available : Bool
  transformers_available : Bool
  sentencepiece_available : Bool
  pil_available : Bool
  cuda_available : Bool
deriving DecidableEq, Repr

/-- Message of the ImportError raised when `import torch` fails. -/
def torchMissingMsg : String :=
  "install pytorch to use the model: `pip install torch`"

/-- Message of the ImportError raised when importing transformers fails. -/
def transformersMissingMsg : String :=
  "transformers is required for using BLIP2 model: `pip install transformers`"

/-- Message of the ImportError raised when `import sentencepiece` fails. -/
def sentencepieceMissingMsg : String :=
  "sentencepiece is required for using BLIP2 model: `pip install sentencepiece`"

/-- Message of the ImportError raised when importing PIL fails. -/
def pilMissingMsg : String :=
  "PIL is required to read image files: `pip install Pillow`"

/-- The fixed hub identifier used for the default processor and model. -/
def blip2Hub : String := "Salesforce/blip2-opt-2.7b"

/-- The default value of the `prompt` constructor parameter. -/
def defaultPrompt : String :=
  "Question: describe what you see in this image. Answer:"

/-- The `if parser_config is None:` block of `__init__`: four dependency
checks on imports in source order, device and dtype selection from CUDA
availability, and the two `from_pretrained` hub downloads (processor, then
model).  Returns the resolved configuration or the ImportError message,
together with the effects performed. -/
def resolveConfig (env : Env) :
    Option ParserConfig → Except String ParserConfig × List Effect
  | some cfg => (.ok cfg, [])
  | none =>
    if !env.torch_available then
      (.error torchMissingMsg, [.importCheck "torch"])
    else if !env.transformers_available then
      (.error transformersMissingMsg,
       [.importCheck "torch", .importCheck "transformers"])
    else if !env.sentencepiece_available then
      (.error sentencepieceMissingMsg,
       [.importCheck "torch", .importCheck "transformers",
        .importCheck "sentencepiece"])
    else if !env.pil_available then
      (.error pilMissingMsg,
       [.importCheck "torch", .importCheck "transformers",
        .importCheck "sentencepiece", .importCheck "PIL"])
    else
      let device := if env.cuda_available then "cuda" else "cpu"
      let dtype := if env.cuda_available then TorchDtype.float16
                   else TorchDtype.float32
      (.ok { processor := .from_pretrained blip2Hub,
             model := .from_pretrained blip2Hub dtype,
             device := device, dtype := dtype },
       [.importCheck "torch", .importCheck "transformers",
        .importCheck "sentencepiece", .importCheck "PIL",
        .hubDownload blip2Hub, .hubDownload blip2Hub])

/-- The three attribute assignments closing `__init__`:
`self._parser_config = parser_config`, `self._keep_image = keep_image`,
`self._prompt = prompt`. -/
def mkAttrs (cfg : ParserConfig) (keep_image : Bool) (prompt : String) :
    Attrs :=
  [("_parser_config", .config cfg),
   ("_keep_image", .bool keep_image),
   ("_prompt", .str prompt)]

/-- Contents found at a filesystem path: a decodable image with a mode and an
opaque pixel payload, or a file PIL cannot identify. -/
inductive FileContent
  | image (mode : String) (data : Nat)
  | nonImage
deriving DecidableEq, Repr

/-- `PIL.Image.open(file)`: decodes the file or raises the
unidentified-image error. -/
def openImage : FileContent → Except PyErr Img
  | .image m d => .ok (.raw m d)
  | .nonImage => .error .unidentifiedImage

/-- The color normalization inside `load_data`:
`if image.mode != "RGB": image = image.convert("RGB")`. -/
def normalizeRGB (image : Img) : Img :=
  if image.mode ≠ "RGB" then image.convert "RGB" else image

/-- The keep-image step of `load_data`: `image_str = img_2_b64(image)` when
`self._keep_image` is truthy, otherwise the initial `None`. -/
def mkImageStr (keep : Bool) (image : Img) : Option B64Str :=
  if keep then some (img_2_b64 image) else none

/-- The document record built by the return statement
`ImageDocument(text=text_str, image=image_str)`.  Fields not passed keep the
schema defaults of the external document class: in particular `extra_info`
defaults to absent. -/
structure ImageDocument where
  text : String
  image : Option B64Str := none
  extra_info : Option (List (String × String)) := none
deriving DecidableEq, Repr

/-- The keyword-argument construction in the return statement, which passes
only `text` and `image`. -/
def mkReturnDoc (text_str : String) (image_str : Option B64Str) :
    ImageDocument :=
  { text := text_str, image := image_str }

/-- The value produced by `load_data`.  Its source annotation declares
`List[Document]`, so a faithful observer must be able to distinguish a bare
document from a list of documents. -/
inductive RetVal
  | document (doc : ImageDocument)
  | docList (docs : List ImageDocument)
deriving DecidableEq, Repr

/-- Decidable equality for `Except`, used to evaluate call outcomes on
concrete inputs. -/
instance {ε α : Type} [DecidableEq ε] [DecidableEq α] :
    DecidableEq (Except ε α) := fun x y =>
  match x, y with
  | .error a, .error b =>
    if h : a = b then .isTrue (by rw [h])
    else .isFalse (fun hh => h (by injection hh))
  | .ok a, .ok b =>
    if h : a = b then .isTrue (by rw [h])
    else .isFalse (fun hh => h (by injection hh))
  | .error _, .ok _ => .isFalse (fun hh => Except.noConfusion hh)
  | .ok _, .error _ => .isFalse (fun hh => Except.noConfusion hh)

/-- Outcome of one `load_data` call: the Python result (returned value or
raised exception), the effect trace of the call, and the instance attributes
after the call (the method body contains no attribute assignment, so every
branch leaves them as they were). -/
structure CallOut where
  result : Except PyErr RetVal
  trace : List Effect
  selfAfter : Attrs
deriving DecidableEq, Repr

/-- The captioning tail of `load_data`: read `self.parser_config` (note the
name — the constructor stored `self._parser_config`), subscript it for
`model`, `processor`, `device`, `dtype` (collapsed here into one typed read),
move the model to the device, preprocess `(image, self._prompt)`, generate,
and decode the first output sequence.  The behavior of the external model and
processor is the oracle `caption`. -/
def captionPhase (caption : ParserConfig → Img → String → String)
    (classAttrs : String → Option PyVal) (self : Attrs)
    (image : Img) (image_str : Option B64Str) :
    Except PyErr RetVal × List Effect :=
  match getattr self classAttrs "parser_config" with
  | .error e => (.error e, [])
  | .ok cfgVal =>
    match cfgVal.asConfig with
    | .error e => (.error e, [])
    | .ok cfg =>
      match getattr self classAttrs "_prompt" with
      | .error e => (.error e, [.modelTo cfg.device])
      | .ok promptVal =>
        match promptVal.asStr with
        | .error e => (.error e, [.modelTo cfg.device])
        | .ok prompt =>
          (.ok (.document (mkReturnDoc (caption cfg image prompt) image_str)),
           [.modelTo cfg.device, .preprocess, .generate, .decodeTok])

namespace ImageVisionLLMReader

/-- `ImageVisionLLMReader.__init__(parser_config, keep_image, prompt)`:
resolve the configuration (running the dependency checks and hub downloads
only when `parser_config` is `None`), then perform the three attribute
assignments.  Returns the ImportError message or the constructed instance
attributes, together with the effect trace. -/
def init (env : Env) (parser_config : Option ParserConfig)
    (keep_image : Bool) (prompt : String) :
    Except String Attrs × List Effect :=
  match resolveConfig env parser_config with
  | (.error e, tr) => (.error e, tr)
  | (.ok cfg, tr) => (.ok (mkAttrs cfg keep_image prompt), tr)

set_option linter.unusedVariables false in
/-- `ImageVisionLLMReader.load_data(file, extra_info)`: open the image,
normalize its mode to RGB when needed, serialize it to base64 when
`self._keep_image` is truthy, then run the captioning tail.  The parameter
`extra_info` appears nowhere in the body — the source accepts and ignores
it. -/
def load_data (caption : ParserConfig → Img → String → String)
    (classAttrs : String → Option PyVal) (self : Attrs)
    (file : FileContent) (extra_info : Option (List (String × String))) :
    CallOut :=
  match openImage file with
  | .error e => ⟨.error e, [.imageOpen], self⟩
  | .ok image0 =>
    let image := normalizeRGB image0
    let convTrace : List Effect :=
      if image0.mode ≠ "RGB" then [.convert image0.mode "RGB"] else []
    match getattr self classAttrs "_keep_image" with
    | .error e => ⟨.error e, .imageOpen :: convTrace, self⟩
    | .ok keepVal =>
      let image_str := mkImageStr keepVal.truthy image
      let encTrace : List Effect :=
        if keepVal.truthy then [.encodeB64 image] else []
      let rest := captionPhase caption classAttrs self image image_str
      ⟨rest.fst, .imageOpen :: (convTrace ++ encTrace ++ rest.snd), self⟩

end ImageVisionLLMReader

/-- A concrete explicitly-supplied configuration used in concrete
evaluations. -/
def sampleConfig : ParserConfig :=
  { processor := .from_pretrained blip2Hub,
    model := .from_pretrained blip2Hub .float32,
    device := "cpu", dtype := .float32 }

/-- Instance lookup of `_keep_image` on attributes produced by the
constructor. -/
theorem mkAttrs_lookup_keep_image (cfg : ParserConfig) (keep : Bool)
    (prompt : String) :
    (mkAttrs cfg keep prompt).lookup "_keep_image" = some (.bool keep) := rfl

/-- Instance lookup of `_parser_config` on attributes produced by the
constructor. -/
theorem mkAttrs_lookup_parser_config_underscore (cfg : ParserConfig)
    (keep : Bool) (prompt : String) :
    (mkAttrs cfg keep prompt).lookup "_parser_config" = some (.config cfg) :=
  rfl

/-- The constructor never creates an instance attribute named
`parser_config` (without the underscore). -/
theorem mkAttrs_lookup_no_parser_config (cfg : ParserConfig) (keep : Bool)
    (prompt : String) :
    (mkAttrs cfg keep prompt).lookup "parser_config" = none := rfl

/-- Unfolding of `load_data` on a reader whose attributes come from the
constructor and on a decodable image: the opened image is normalized, the
base64 step sees the normalized image, and the captioning tail runs on the
stored attributes. -/
theorem load_data_mkAttrs (caption : ParserConfig → Img → String → String)
    (classAttrs : String → Option PyVal) (cfg : ParserConfig) (keep : Bool)
    (prompt mode : String) (data : Nat)
    (extra : Option (List (String × String))) :
    ImageVisionLLMReader.load_data caption classAttrs
      (mkAttrs cfg keep prompt) (.image mode data) extra =
    ⟨(captionPhase caption classAttrs (mkAttrs cfg keep prompt)
        (normalizeRGB (.raw mode data))
        (mkImageStr keep (normalizeRGB (.raw mode data)))).fst,
     .imageOpen ::
       (((if mode ≠ "RGB" then [Effect.convert mode "RGB"] else []) ++
         (if keep then [Effect.encodeB64 (normalizeRGB (.raw mode data))]
          else [])) ++
        (captionPhase caption classAttrs (mkAttrs cfg keep prompt)
          (normalizeRGB (.raw mode data))
          (mkImageStr keep (normalizeRGB (.raw mode data)))).snd),
     mkAttrs cfg keep prompt⟩ := rfl

/-- When neither the instance attributes from the constructor nor the class
hierarchy define `parser_config`, the captioning tail raises
`AttributeError("parser_config")` immediately, performing no effect. -/
theorem captionPhase_no_parser_config
    (caption : ParserConfig → Img → String → String)
    (classAttrs : String → Option PyVal) (cfg : ParserConfig) (keep : Bool)
    (prompt : String) (image : Img) (istr : Option B64Str)
    (h : classAttrs "parser_config" = none) :
    captionPhase caption classAttrs (mkAttrs cfg keep prompt) image istr =
      (.error (.attributeError "parser_config"), []) := by
  unfold captionPhase getattr
  rw [mkAttrs_lookup_no_parser_config, h]

/-- Every effect of the captioning tail is device placement, preprocessing,
generation or decoding. -/
theorem captionPhase_trace_effects
    (caption : ParserConfig → Img → String → String)
    (classAttrs : String → Option PyVal) (self : Attrs) (image : Img)
    (istr : Option B64Str) (e : Effect)
    (h : e ∈ (captionPhase caption classAttrs self image istr).snd) :
    (∃ d, e = .modelTo d) ∨ e = .preprocess ∨ e = .generate ∨
      e = .decodeTok := by
  unfold captionPhase at h
  split at h
  · simp at h
  · split at h
    · simp at h
    · split at h
      · simp at h
        exact Or.inl ⟨_, h⟩
      · split at h
        · simp at h
          exact Or.inl ⟨_, h⟩
        · simp at h
          rcases h with h | h | h | h
          · exact Or.inl ⟨_, h⟩
          · exact Or.inr (Or.inl h)
          · exact Or.inr (Or.inr (Or.inl h))
          · exact Or.inr (Or.inr (Or.inr h))

/-- The captioning tail never converts an image. -/
theorem captionPhase_no_convert
    (caption : ParserConfig → Img → String → String)
    (classAttrs : String → Option PyVal) (self : Attrs) (image : Img)
    (istr : Option B64Str) (a b : String) :
    Effect.convert a b ∉
      (captionPhase caption classAttrs self image istr).snd := by
  intro hmem
  rcases captionPhase_trace_effects _ _ _ _ _ _ hmem with ⟨d, h⟩ | h | h | h <;>
    exact Effect.noConfusion h

/-- The captioning tail never base64-encodes an image. -/
theorem captionPhase_no_encode
    (caption : ParserConfig → Img → String → String)
    (classAttrs : String → Option PyVal) (self : Attrs) (image : Img)
    (istr : Option B64Str) (i : Img) :
    Effect.encodeB64 i ∉
      (captionPhase caption classAttrs self image istr).snd := by
  intro hmem
  rcases captionPhase_trace_effects _ _ _ _ _ _ hmem with ⟨d, h⟩ | h | h | h <;>
    exact Effect.noConfusion h

/-- A successful outcome of the captioning tail is always a bare document
built by the return statement, carrying the previously computed image
string. -/
theorem captionPhase_ok_shape
    (caption : ParserConfig → Img → String → String)
    (classAttrs : String → Option PyVal) (self : Attrs) (image : Img)
    (istr : Option B64Str) (rv : RetVal)
    (h : (captionPhase caption classAttrs self image istr).fst = .ok rv) :
    ∃ t, rv = .document (mkReturnDoc t istr) := by
  unfold captionPhase at h
  split at h
  · simp at h
  · split at h
    · simp at h
    · split at h
      · simp at h
      · split at h
        · simp at h
        · simp at h
          exact ⟨_, h.symm⟩

/-- A successful `load_data` call always returns a bare document built by the
return statement. -/
theorem load_data_ok_shape
    (caption : ParserConfig → Img → String → String)
    (classAttrs : String → Option PyVal) (self : Attrs) (file : FileContent)
    (extra : Option (List (String × String))) (rv : RetVal)
    (h : (ImageVisionLLMReader.load_data caption classAttrs self file
            extra).result = .ok rv) :
    ∃ t istr, rv = .document (mkReturnDoc t istr) := by
  unfold ImageVisionLLMReader.load_data at h
  split at h
  · simp at h
  · dsimp only at h
    split at h
    · simp at h
    · dsimp only at h
      rcases captionPhase_ok_shape _ _ _ _ _ _ h with ⟨t, ht⟩
      exact ⟨t, _, ht⟩

/-- A constructed reader always carries exactly the three attributes of
`mkAttrs`, whatever configuration was resolved. -/
theorem init_ok_shape (env : Env) (pc : Option ParserConfig) (keep : Bool)
    (prompt : String) (self : Attrs) (tr : List Effect)
    (h : ImageVisionLLMReader.init env pc keep prompt = (.ok self, tr)) :
    ∃ cfg, self = mkAttrs cfg keep prompt := by
  unfold ImageVisionLLMReader.init at h
  split at h
  · simp at h
  · rename_i cfg tr0 heq
    simp at h
    exact ⟨cfg, h.1.symm⟩

/-- On every branch of `load_data` the instance attributes after the call are
the attributes before it: the method body contains no attribute assignment. -/
theorem load_data_selfAfter (caption : ParserConfig → Img → String → String)
    (classAttrs : String → Option PyVal) (self : Attrs) (file : FileContent)
    (extra : Option (List (String × String))) :
    (ImageVisionLLMReader.load_data caption classAttrs self file
        extra).selfAfter = self := by
  unfold ImageVisionLLMReader.load_data
  split
  · rfl
  · dsimp only
    split
    · rfl
    · rfl

/-- Claim C1, evaluated on the code: a reader built by the constructor with
`keep_image = false`, applied to a valid RGB image, does not return a
document at all — `load_data` raises `AttributeError("parser_config")`
because the constructor stored the configuration under `_parser_config`
while `load_data` reads `parser_config`.  The invariant claimed for the
returned document (text populated, image present iff `keep_image`) is
therefore never realized by any call. -/
theorem claim_C1_load_data_raises_keep_image_false :
    ImageVisionLLMReader.init ⟨true, true, true, true, false⟩
        (some sampleConfig) false defaultPrompt =
      (.ok (mkAttrs sampleConfig false defaultPrompt), []) ∧
    (ImageVisionLLMReader.load_data (fun _ _ _ => "a red square")
        (fun _ => none) (mkAttrs sampleConfig false defaultPrompt)
        (.image "RGB" 0) none).result =
      .error (.attributeError "parser_config") := ⟨rfl, rfl⟩

/-- Claim C2, evaluated on the code: even on a valid color image and a reader
constructed with an explicit configuration, `load_data` does not complete
without error: it raises `AttributeError("parser_config")` before the model
is ever invoked, so no document with a non-empty `text` is produced. -/
theorem claim_C2_load_data_raises_valid_color_image :
    ImageVisionLLMReader.init ⟨true, true, true, true, true⟩
        (some sampleConfig) true defaultPrompt =
      (.ok (mkAttrs sampleConfig true defaultPrompt), []) ∧
    (ImageVisionLLMReader.load_data (fun _ _ _ => "a solid color image")
        (fun _ => none) (mkAttrs sampleConfig true defaultPrompt)
        (.image "RGB" 1) none).result =
      .error (.attributeError "parser_config") := ⟨rfl, rfl⟩

/-- Claim C3: constructing the reader with an explicitly supplied
`parser_config` performs no dependency import check and no hub download (the
effect trace is empty) and only stores the supplied configuration, the
`keep_image` flag and the `prompt` as the three instance attributes. -/
theorem claim_C3_explicit_config_skips_checks (env : Env)
    (cfg : ParserConfig) (keep : Bool) (prompt : String) :
    ImageVisionLLMReader.init env (some cfg) keep prompt =
      (.ok [("_parser_config", .config cfg), ("_keep_image", .bool keep),
            ("_prompt", .str prompt)], []) := rfl

/-- Claim C4: with `parser_config` omitted and a required optional library
absent, construction raises the ImportError of the first missing library in
the source check order (torch, transformers, sentencepiece, PIL); the trace
shows only the import checks made up to that point — no hub download and no
image I/O — and no reader instance is produced.  The four messages, each
naming its own install remedy, are pairwise distinct. -/
theorem claim_C4_missing_dependency (env : Env) (keep : Bool)
    (prompt : String) :
    (env.torch_available = false →
      ImageVisionLLMReader.init env none keep prompt =
        (.error torchMissingMsg, [.importCheck "torch"])) ∧
    (env.torch_available = true → env.transformers_available = false →
      ImageVisionLLMReader.init env none keep prompt =
        (.error transformersMissingMsg,
         [.importCheck "torch", .importCheck "transformers"])) ∧
    (env.torch_available = true → env.transformers_available = true →
        env.sentencepiece_available = false →
      ImageVisionLLMReader.init env none keep prompt =
        (.error sentencepieceMissingMsg,
         [.importCheck "torch", .importCheck "transformers",
          .importCheck "sentencepiece"])) ∧
    (env.torch_available = true → env.transformers_available = true →
        env.sentencepiece_available = true → env.pil_available = false →
      ImageVisionLLMReader.init env none keep prompt =
        (.error pilMissingMsg,
         [.importCheck "torch", .importCheck "transformers",
          .importCheck "sentencepiece", .importCheck "PIL"])) ∧
    (torchMissingMsg ≠ transformersMissingMsg ∧
     torchMissingMsg ≠ sentencepieceMissingMsg ∧
     torchMissingMsg ≠ pilMissingMsg ∧
     transformersMissingMsg ≠ sentencepieceMissingMsg ∧
     transformersMissingMsg ≠ pilMissingMsg ∧
     sentencepieceMissingMsg ≠ pilMissingMsg) := by
  refine ⟨?_, ?_, ?_, ?_, by decide⟩
  · intro h1
    simp [ImageVisionLLMReader.init, resolveConfig, h1]
  · intro h1 h2
    simp [ImageVisionLLMReader.init, resolveConfig, h1, h2]
  · intro h1 h2 h3
    simp [ImageVisionLLMReader.init, resolveConfig, h1, h2, h3]
  · intro h1 h2 h3 h4
    simp [ImageVisionLLMReader.init, resolveConfig, h1, h2, h3, h4]

/-- Witness for claim C4 at a concrete environment with torch missing. -/
theorem claim_C4_missing_dependency_witness :
    ImageVisionLLMReader.init ⟨false, true, true, true, false⟩ none false
        defaultPrompt = (.error torchMissingMsg, [.importCheck "torch"]) :=
  (claim_C4_missing_dependency ⟨false, true, true, true, false⟩ false
    defaultPrompt).1 rfl

/-- Claim C5: when the default configuration is constructed (all dependency
checks pass, `parser_config` omitted), the selected device is `"cuda"`
exactly when CUDA is available and `"cpu"` otherwise, the selected dtype is
`float16` exactly when CUDA is available and `float32` otherwise; hence
reduced precision is chosen if and only if the accelerator device is
chosen. -/
theorem claim_C5_device_dtype_selection (env : Env) (keep : Bool)
    (prompt : String) (ht : env.torch_available = true)
    (htr : env.transformers_available = true)
    (hs : env.sentencepiece_available = true)
    (hp : env.pil_available = true) :
    ∃ cfg tr,
      ImageVisionLLMReader.init env none keep prompt =
        (.ok (mkAttrs cfg keep prompt), tr) ∧
      cfg.device = (if env.cuda_available then "cuda" else "cpu") ∧
      cfg.dtype = (if env.cuda_available then TorchDtype.float16
                   else TorchDtype.float32) ∧
      (cfg.device = "cuda" ↔ env.cuda_available = true) ∧
      (cfg.dtype = TorchDtype.float16 ↔ env.cuda_available = true) ∧
      (cfg.device = "cuda" ↔ cfg.dtype = TorchDtype.float16) := by
  cases hc : env.cuda_available with
  | false =>
    refine ⟨{ processor := .from_pretrained blip2Hub,
              model := .from_pretrained blip2Hub .float32,
              device := "cpu", dtype := .float32 },
            [.importCheck "torch", .importCheck "transformers",
             .importCheck "sentencepiece", .importCheck "PIL",
             .hubDownload blip2Hub, .hubDownload blip2Hub],
            ?_, ?_, ?_, ?_, ?_, ?_⟩
    · simp [ImageVisionLLMReader.init, resolveConfig, ht, htr, hs, hp, hc,
            mkAttrs]
    all_goals decide
  | true =>
    refine ⟨{ processor := .from_pretrained blip2Hub,
              model := .from_pretrained blip2Hub .float16,
              device := "cuda", dtype := .float16 },
            [.importCheck "torch", .importCheck "transformers",
             .importCheck "sentencepiece", .importCheck "PIL",
             .hubDownload blip2Hub, .hubDownload blip2Hub],
            ?_, ?_, ?_, ?_, ?_, ?_⟩
    · simp [ImageVisionLLMReader.init, resolveConfig, ht, htr, hs, hp, hc,
            mkAttrs]
    all_goals decide

/-- Witness for claim C5 at a concrete environment with CUDA available. -/
theorem claim_C5_device_dtype_selection_witness :
    ∃ cfg tr,
      ImageVisionLLMReader.init ⟨true, true, true, true, true⟩ none false
          defaultPrompt = (.ok (mkAttrs cfg false defaultPrompt), tr) ∧
      cfg.device = (if (⟨true, true, true, true, true⟩ : Env).cuda_available
                    then "cuda" else "cpu") ∧
      cfg.dtype = (if (⟨true, true, true, true, true⟩ : Env).cuda_available
                   then TorchDtype.float16 else TorchDtype.float32) ∧
      (cfg.device = "cuda" ↔
        (⟨true, true, true, true, true⟩ : Env).cuda_available = true) ∧
      (cfg.dtype = TorchDtype.float16 ↔
        (⟨true, true, true, true, true⟩ : Env).cuda_available = true) ∧
      (cfg.device = "cuda" ↔ cfg.dtype = TorchDtype.float16) :=
  claim_C5_device_dtype_selection ⟨true, true, true, true, true⟩ false
    defaultPrompt rfl rfl rfl rfl

/-- Claim C6: `load_data` normalizes a non-RGB image to RGB unconditionally
(no per-call option exists in the signature), leaves an already-RGB image
unconverted, and when `keep_image` is true the base64 encoding is applied to
the normalized image — every encoded image in the trace is the normalized
one, never the unconverted original of a non-RGB input. -/
theorem claim_C6_rgb_normalization
    (caption : ParserConfig → Img → String → String)
    (classAttrs : String → Option PyVal) (cfg : ParserConfig) (keep : Bool)
    (prompt mode : String) (data : Nat)
    (extra : Option (List (String × String))) :
    (normalizeRGB (Img.raw mode data)).mode = "RGB" ∧
    (mode ≠ "RGB" →
      normalizeRGB (Img.raw mode data) = (Img.raw mode data).convert "RGB") ∧
    (mode = "RGB" → normalizeRGB (Img.raw mode data) = Img.raw mode data) ∧
    (mode ≠ "RGB" →
      Effect.convert mode "RGB" ∈
        (ImageVisionLLMReader.load_data caption classAttrs
          (mkAttrs cfg keep prompt) (.image mode data) extra).trace) ∧
    (mode = "RGB" → ∀ a b,
      Effect.convert a b ∉
        (ImageVisionLLMReader.load_data caption classAttrs
          (mkAttrs cfg keep prompt) (.image mode data) extra).trace) ∧
    (keep = true →
      Effect.encodeB64 (normalizeRGB (Img.raw mode data)) ∈
        (ImageVisionLLMReader.load_data caption classAttrs
          (mkAttrs cfg keep prompt) (.image mode data) extra).trace) ∧
    (∀ i, Effect.encodeB64 i ∈
        (ImageVisionLLMReader.load_data caption classAttrs
          (mkAttrs cfg keep prompt) (.image mode data) extra).trace →
      i = normalizeRGB (Img.raw mode data)) := by
  by_cases hm : mode = "RGB" <;> cases keep <;>
    refine ⟨?_, ?_, ?_, ?_, ?_, ?_, ?_⟩ <;>
      simp_all [load_data_mkAttrs, normalizeRGB, Img.mode, Img.convert,
        captionPhase_no_convert, captionPhase_no_encode]

/-- Witness for claim C6 on a concrete palette-mode image with
`keep_image = true`. -/
theorem claim_C6_rgb_normalization_witness :
    ("P" ≠ "RGB") ∧
    Effect.convert "P" "RGB" ∈
      (ImageVisionLLMReader.load_data (fun _ _ _ => "w") (fun _ => none)
        (mkAttrs sampleConfig true defaultPrompt) (.image "P" 7)
        none).trace ∧
    Effect.encodeB64 (normalizeRGB (Img.raw "P" 7)) ∈
      (ImageVisionLLMReader.load_data (fun _ _ _ => "w") (fun _ => none)
        (mkAttrs sampleConfig true defaultPrompt) (.image "P" 7)
        none).trace := by
  refine ⟨by decide, ?_, ?_⟩
  · exact (claim_C6_rgb_normalization (fun _ _ _ => "w") (fun _ => none)
      sampleConfig true defaultPrompt "P" 7 none).2.2.2.1 (by decide)
  · exact (claim_C6_rgb_normalization (fun _ _ _ => "w") (fun _ => none)
      sampleConfig true defaultPrompt "P" 7 none).2.2.2.2.2.1 rfl

/-- Claim C7 counterexample: a concrete call supplying metadata whose
returned document carries none of it — the return statement constructs
`ImageDocument(text=..., image=...)` without forwarding `extra_info`.  The
class hierarchy supplies `parser_config` here so the call reaches the return
statement. -/
theorem claim_C7_counterexample :
    (ImageVisionLLMReader.load_data (fun _ _ _ => "two dogs")
        (fun n => if n = "parser_config" then some (.config sampleConfig)
                  else none)
        (mkAttrs sampleConfig false defaultPrompt)
        (.image "RGB" 0) (some [("author", "alice")])).result =
      .ok (.document { text := "two dogs", image := none,
                       extra_info := none }) ∧
    ({ text := "two dogs", image := none, extra_info := none } :
        ImageDocument).extra_info ≠ some [("author", "alice")] :=
  ⟨rfl, by decide⟩

/-- Claim C7 (amended): the `extra_info` argument of `load_data` is accepted
but ignored — whenever a call returns a document, that document's
`extra_info` field is absent, regardless of the metadata supplied. -/
theorem claim_C7_extra_info_discarded
    (caption : ParserConfig → Img → String → String)
    (classAttrs : String → Option PyVal) (self : Attrs) (file : FileContent)
    (extra : Option (List (String × String))) (doc : ImageDocument)
    (h : (ImageVisionLLMReader.load_data caption classAttrs self file
            extra).result = .ok (.document doc)) :
    doc.extra_info = none := by
  rcases load_data_ok_shape _ _ _ _ _ _ h with ⟨t, istr, hd⟩
  injection hd with hdoc
  rw [hdoc]
  rfl

/-- Witness for the amended claim C7 at a concrete call. -/
theorem claim_C7_extra_info_discarded_witness :
    ({ text := "a cat", image := some (img_2_b64 (Img.raw "RGB" 5)),
       extra_info := none } : ImageDocument).extra_info = none :=
  claim_C7_extra_info_discarded (fun _ _ _ => "a cat")
    (fun n => if n = "parser_config" then some (.config sampleConfig)
              else none)
    (mkAttrs sampleConfig true defaultPrompt) (.image "RGB" 5)
    (some [("k", "v")])
    { text := "a cat", image := some (img_2_b64 (Img.raw "RGB" 5)),
      extra_info := none }
    rfl

/-- Claim C8: a path that does not decode as an image makes `load_data`
raise the unidentified-image error with no document and with no conversion,
encoding, device placement or captioning work performed (the trace is just
the open attempt); and no call of `load_data`, on any input whatsoever,
mutates the reader's stored attributes. -/
theorem claim_C8_unsupported_image
    (caption : ParserConfig → Img → String → String)
    (classAttrs : String → Option PyVal) (self : Attrs)
    (extra : Option (List (String × String))) :
    (∀ file, (ImageVisionLLMReader.load_data caption classAttrs self file
        extra).selfAfter = self) ∧
    ImageVisionLLMReader.load_data caption classAttrs self
        FileContent.nonImage extra =
      ⟨.error .unidentifiedImage, [.imageOpen], self⟩ :=
  ⟨fun file => load_data_selfAfter caption classAttrs self file extra, rfl⟩

/-- Claim C9: whenever `load_data` returns successfully, the returned value
is a single bare `ImageDocument` — never a list of documents, although the
source return annotation declares `List[Document]`. -/
theorem claim_C9_returns_bare_document
    (caption : ParserConfig → Img → String → String)
    (classAttrs : String → Option PyVal) (self : Attrs) (file : FileContent)
    (extra : Option (List (String × String))) (rv : RetVal)
    (h : (ImageVisionLLMReader.load_data caption classAttrs self file
            extra).result = .ok rv) :
    (∃ doc, rv = .document doc) ∧ ∀ docs, rv ≠ .docList docs := by
  rcases load_data_ok_shape _ _ _ _ _ _ h with ⟨t, istr, hd⟩
  subst hd
  exact ⟨⟨_, rfl⟩, fun docs hcon => RetVal.noConfusion hcon⟩

/-- Witness for claim C9 at a concrete successful call (the class hierarchy
supplies `parser_config` so the call succeeds). -/
theorem claim_C9_returns_bare_document_witness :
    (∃ doc,
      RetVal.document { text := "a dog", image := none, extra_info := none }
        = .document doc) ∧
    ∀ docs,
      RetVal.document { text := "a dog", image := none, extra_info := none }
        ≠ .docList docs :=
  claim_C9_returns_bare_document (fun _ _ _ => "a dog")
    (fun n => if n = "parser_config" then some (.config sampleConfig)
              else none)
    (mkAttrs sampleConfig false defaultPrompt) (.image "L" 4) none
    (.document { text := "a dog", image := none, extra_info := none }) rfl

/-- Claim C10: the constructor stores the backend configuration under the
attribute `_parser_config` and never creates an attribute `parser_config`,
while `load_data` reads `parser_config`; hence on every reader produced by
the constructor, if the class hierarchy does not separately define
`parser_config`, the attribute access in `load_data` raises
`AttributeError("parser_config")` and the stored configuration is never
consulted — the call never reaches device placement or generation. -/
theorem claim_C10_parser_config_attribute_mismatch
    (env : Env) (pc : Option ParserConfig) (keep : Bool) (prompt : String)
    (self : Attrs) (tr : List Effect)
    (hinit : ImageVisionLLMReader.init env pc keep prompt = (.ok self, tr)) :
    (∃ cfg, self.lookup "_parser_config" = some (.config cfg)) ∧
    self.lookup "parser_config" = none ∧
    ∀ (caption : ParserConfig → Img → String → String)
      (classAttrs : String → Option PyVal) (mode : String) (data : Nat)
      (extra : Option (List (String × String))),
      classAttrs "parser_config" = none →
      (ImageVisionLLMReader.load_data caption classAttrs self
          (.image mode data) extra).result =
        .error (.attributeError "parser_config") ∧
      (∀ d, Effect.modelTo d ∉
        (ImageVisionLLMReader.load_data caption classAttrs self
          (.image mode data) extra).trace) ∧
      Effect.generate ∉
        (ImageVisionLLMReader.load_data caption classAttrs self
          (.image mode data) extra).trace := by
  rcases init_ok_shape _ _ _ _ _ _ hinit with ⟨cfg, hself⟩
  subst hself
  refine ⟨⟨cfg, rfl⟩, rfl, ?_⟩
  intro caption classAttrs mode data extra hca
  rw [load_data_mkAttrs,
      captionPhase_no_parser_config caption classAttrs cfg keep prompt _ _
        hca]
  refine ⟨rfl, ?_, ?_⟩
  · intro d
    by_cases hm : mode = "RGB" <;> cases keep <;> simp [hm]
  · by_cases hm : mode = "RGB" <;> cases keep <;> simp [hm]

/-- Witness for claim C10 at a concrete constructed reader and image. -/
theorem claim_C10_parser_config_attribute_mismatch_witness :
    (ImageVisionLLMReader.load_data (fun _ _ _ => "x") (fun _ => none)
        (mkAttrs sampleConfig false defaultPrompt) (.image "L" 2)
        none).result = .error (.attributeError "parser_config") :=
  ((claim_C10_parser_config_attribute_mismatch
      ⟨true, true, true, true, false⟩ (some sampleConfig) false
      defaultPrompt (mkAttrs sampleConfig false defaultPrompt) [] rfl).2.2
    (fun _ _ _ => "x") (fun _ => none) "L" 2 none rfl).1
